import Mathlib

set_option maxRecDepth 16384

/-!
Verification development for the transcript service in src/main.py.

The development shallowly embeds the Python source: the data model
(TranscriptResponse, the provider result dictionaries), the identifier
validation performed at the top of fetch_transcript, the backoff and
jitter delays, the language-selection logic of try_transcript_api and
try_pytubefix, the retry loop of fetch_transcript, and the two HTTP
route handlers.  External collaborators (the caption index, the
pytubefix library, the network) are modelled as explicit inputs, so
every definition is executable.
-/

/-- One advertised caption track, as reported by the caption-index
capability (language code plus whether the track is machine generated).
Lists of tracks are kept in the iteration order of the index. -/
structure Track where
  language_code : String
  is_generated : Bool
deriving DecidableEq

/-- One pytubefix caption stream: its language code and the raw SRT
content that generate_srt_captions would produce for it. -/
structure Caption where
  code : String
  srt : String
deriving DecidableEq

/-- The response model of the service (src/main.py lines 44-51), with
the same fields in the same order; Optional fields become Option. -/
structure TranscriptResponse where
  success : Bool
  text : Option String
  language : Option String
  source : Option String
  is_auto_generated : Option Bool
  error : Option String
  error_type : Option String
deriving DecidableEq

/-- The request body of the POST route (src/main.py lines 40-42).
The lang field is Optional with pydantic default "en"; an explicit
JSON null arrives as none. -/
structure TranscriptRequest where
  video_id : String
  lang : Option String
deriving DecidableEq

/-- Value returned by one provider call: a success dictionary carrying
text, language, source and is_auto_generated; an error dictionary
carrying error and message keys; or Python None.  In the orchestrator
only success dictionaries are truthy under result.get applied to the
success key, exactly as in the source. -/
inductive ProviderResult where
  | success (text language source : String) (is_auto_generated : Bool)
  | failure (error message : String)
  | noResult
deriving DecidableEq

/-- Outcome of the external list_transcripts call inside
try_transcript_api: either the advertised track list, or one of the
three classified exceptions of the library. -/
inductive ListingOutcome where
  | ok (tracks : List Track)
  | disabled (msg : String)
  | notFound (msg : String)
  | unavailable (msg : String)
deriving DecidableEq

/-- Outcome of the external pytubefix calls inside try_pytubefix:
the library may be absent, the video may be inaccessible when yt.title
is read, or the caption set is obtained. -/
inductive PytubeOutcome where
  | unavailableLib
  | videoInaccessible (msg : String)
  | ok (captions : List Caption)
deriving DecidableEq

/-- Validation test at the top of fetch_transcript (src/main.py line
245): the input is rejected iff it is empty or its length differs from
11.  No character-set test is performed by the source. -/
def invalidVideoId (s : String) : Bool :=
  s == "" || s.length != 11

/-- Watch-page URL template, from the spec list of supported URL
shapes (the source itself performs no URL extraction). -/
def watchUrl (id : String) : String :=
  "https://www.youtube.com/watch?v=" ++ id

/-- Short-link URL template from the spec. -/
def shortUrl (id : String) : String :=
  "https://youtu.be/" ++ id

/-- Embed-path URL template from the spec. -/
def embedUrl (id : String) : String :=
  "https://www.youtube.com/embed/" ++ id

/-- Path-segment /v/ URL template from the spec. -/
def vPathUrl (id : String) : String :=
  "https://www.youtube.com/v/" ++ id

/-- Sleep performed at the top of loop iteration attempt (0-indexed)
by fetch_transcript (src/main.py lines 254-257), in milliseconds:
nothing before the first attempt, 2 ^ attempt seconds afterwards. -/
def backoffSleepMs (attempt : Nat) : Nat :=
  if attempt = 0 then 0 else 2 ^ attempt * 1000

/-- Total wait before loop iteration attempt: the backoff sleep plus
the random_delay call (src/main.py lines 63-66), whose value is
randint 100 500 milliseconds; the jitter is passed in as a function of
the attempt index. -/
def attemptDelayMs (jitter : Nat → Nat) (attempt : Nat) : Nat :=
  backoffSleepMs attempt + jitter attempt

/-- Modelled external capability: find_transcript of the caption-index
library used at src/main.py lines 91 and 95.  For each requested
language code in order, the library returns the manually created track
for that code when one exists, else the generated track for that code,
else moves to the next requested code; with no match at all it raises,
which the source catches, so the embedding returns none. -/
def find_transcript (tl : List Track) : List String → Option Track
  | [] => none
  | l :: rest =>
    match tl.find? (fun t => !t.is_generated && t.language_code == l) with
    | some t => some t
    | none =>
      match tl.find? (fun t => t.is_generated && t.language_code == l) with
      | some t => some t
      | none => find_transcript tl rest

/-- Track selection of try_transcript_api (src/main.py lines 89-102):
find_transcript with the requested lang, else find_transcript with
"en", else the first track of the advertised list. -/
def selectTranscript (tl : List Track) (lang : String) : Option Track :=
  match find_transcript tl [lang] with
  | some t => some t
  | none =>
    match find_transcript tl ["en"] with
    | some t => some t
    | none => tl.head?

/-- Helper for the spec-order resolver: first manually created track
whose code matches some requested tag, tags scanned in priority
order. -/
def findFirstManualIn (tl : List Track) : List String → Option Track
  | [] => none
  | l :: rest =>
    match tl.find? (fun t => !t.is_generated && t.language_code == l) with
    | some t => some t
    | none => findFirstManualIn tl rest

/-- Helper for the spec-order resolver: first generated track whose
code matches some requested tag, tags scanned in priority order. -/
def findFirstGeneratedIn (tl : List Track) : List String → Option Track
  | [] => none
  | l :: rest =>
    match tl.find? (fun t => t.is_generated && t.language_code == l) with
    | some t => some t
    | none => findFirstGeneratedIn tl rest

/-- Resolution order exactly as the claim states it, written from the
spec wording for comparison with the source: (a) manual track matching
a requested tag in priority order, (b) generated track matching a
requested tag, (c) any manual track, (d) any track at all. -/
def resolveSpecOrder (tl : List Track) (requested : List String) : Option Track :=
  match findFirstManualIn tl requested with
  | some t => some t
  | none =>
    match findFirstGeneratedIn tl requested with
    | some t => some t
    | none =>
      match tl.find? (fun t => !t.is_generated) with
      | some t => some t
      | none => tl.head?

/-- The embedded list_transcripts branch of try_transcript_api
(src/main.py lines 77-127).  The entries fetched for the chosen track
are supplied by fetchEntries, a list of entry text strings in
chronological order; the source joins them with single spaces and
performs no further cleanup.  When the advertised list is empty the
source falls through to the get_transcript fallback, which fails on
the same empty listing and yields Python None. -/
def try_transcript_api (listing : ListingOutcome) (fetchEntries : Track → List String)
    (lang : String) : ProviderResult :=
  match listing with
  | .disabled m => .failure "transcripts_disabled" m
  | .notFound m => .failure "no_transcript" m
  | .unavailable m => .failure "video_unavailable" m
  | .ok tl =>
    match selectTranscript tl lang with
    | some t =>
        .success (String.intercalate " " (fetchEntries t)) t.language_code
          "youtube-transcript-api" t.is_generated
    | none => .noResult

/-- Splitting of a character list at newline characters, the
splitlines call of try_pytubefix (library string primitives are
re-implemented structurally so the kernel can evaluate them). -/
def splitOnNl : List Char → List (List Char)
  | [] => [[]]
  | c :: cs =>
    let r := splitOnNl cs
    if c == '\n' then [] :: r
    else
      match r with
      | [] => [[c]]
      | line :: rest => (c :: line) :: rest

/-- Whitespace trimming of a line, the Python strip call. -/
def trimChars (s : List Char) : List Char :=
  ((s.dropWhile Char.isWhitespace).reverse.dropWhile Char.isWhitespace).reverse

/-- True iff the line consists only of digits and is non-empty, as
Python str.isdigit reports. -/
def isDigitLine (l : List Char) : Bool :=
  !l.isEmpty && l.all Char.isDigit

/-- True iff the list starts with the three-character SRT timestamp
arrow. -/
def startsWithArrow : List Char → Bool
  | c1 :: c2 :: c3 :: _ => c1 == '-' && c2 == '-' && c3 == '>'
  | _ => false

/-- True iff the line contains the SRT timestamp arrow, as the Python
membership test does. -/
def hasArrowChars : List Char → Bool
  | [] => false
  | c :: cs => startsWithArrow (c :: cs) || hasArrowChars cs

/-- SRT cleanup of try_pytubefix (src/main.py lines 208-216): split
into lines, trim each, drop empty lines, digit-only lines and
timestamp lines, join the rest with single spaces. -/
def parseSrt (srt : String) : String :=
  String.intercalate " "
    (((((splitOnNl srt.data).map trimChars).filter
      (fun l => !(l.isEmpty || isDigitLine l || hasArrowChars l))).map
        (fun l => String.mk l)))

/-- Caption selection of try_pytubefix (src/main.py lines 192-202):
the caption whose code is the requested lang if advertised, else the
"en" caption if advertised, else the first caption. -/
def pickCaption (captions : List Caption) (lang : String) : Option Caption :=
  if lang ∈ captions.map (fun c => c.code) then captions.find? (fun c => c.code == lang)
  else if "en" ∈ captions.map (fun c => c.code) then captions.find? (fun c => c.code == "en")
  else captions.head?

/-- The embedded try_pytubefix (src/main.py lines 156-234): absent
library yields None; inaccessible video yields the video_unavailable
dictionary; an empty caption set yields no_captions; otherwise the
picked caption is parsed, an empty cleanup result yields
empty_captions, and a non-empty one yields the success dictionary with
is_auto_generated always True. -/
def try_pytubefix (o : PytubeOutcome) (lang : String) : ProviderResult :=
  match o with
  | .unavailableLib => .noResult
  | .videoInaccessible m => .failure "video_unavailable" m
  | .ok captions =>
    if captions = [] then .failure "no_captions" "No captions found"
    else
      match pickCaption captions lang with
      | some c =>
        if parseSrt c.srt = "" then .failure "empty_captions" "Captions are empty"
        else .success (parseSrt c.srt) c.code "pytubefix" true
      | none => .noResult

/-- Truthiness test of the orchestrator (src/main.py lines 264 and
269): result and result.get applied to the success key, which holds
exactly for success dictionaries. -/
def isSuccessR : ProviderResult → Bool
  | .success _ _ _ _ => true
  | _ => false

/-- Response built by TranscriptResponse applied to a success
dictionary (src/main.py lines 265 and 270). -/
def successResponse (text language source : String) (auto : Bool) : TranscriptResponse :=
  ⟨true, some text, some language, some source, some auto, none, none⟩

/-- Response returned on validation failure (src/main.py lines
246-250). -/
def invalidResponse : TranscriptResponse :=
  ⟨false, none, none, none, none,
    some "Invalid video ID format (must be 11 characters)",
    some "invalid_video_id"⟩

/-- Single-quote character, built numerically so the embedding can
reproduce the source message verbatim. -/
def squote : String := String.singleton (Char.ofNat 39)

/-- The f-string message of the all-methods-failed response
(src/main.py lines 280-286), with the video id interpolated. -/
def allFailedMessage (video_id : String) : String :=
  "Unable to fetch transcript for video " ++ squote ++ video_id ++ squote ++
    ". This may be due to: (1) Captions actually disabled, " ++
    "(2) YouTube rate limiting/blocking the server, " ++
    "(3) Geographic restrictions. " ++
    "Try again in a few minutes or check the video directly."

/-- Response returned when every attempt failed (src/main.py lines
278-288). -/
def allFailedResponse (video_id : String) : TranscriptResponse :=
  ⟨false, none, none, none, none, some (allFailedMessage video_id),
    some "all_methods_failed"⟩

/-- The retry loop of fetch_transcript (src/main.py lines 253-273),
with the two strategies abstracted as functions of the attempt index
(the source passes the same video_id and lang on every call; external
state may differ between calls).  The loop tries pytubefix first, then
the transcript api, returns on the first success dictionary, and
otherwise moves to the next attempt.  Besides the first success
response the embedding also counts, for each strategy, how many calls
were made. -/
def fetchLoop (pytubefixCall transcriptApiCall : Nat → ProviderResult) :
    Nat → Nat → Option TranscriptResponse × Nat × Nat
  | 0, _ => (none, 0, 0)
  | fuel + 1, att =>
    match pytubefixCall att with
    | .success t l s b => (some (successResponse t l s b), 1, 0)
    | _ =>
      match transcriptApiCall att with
      | .success t l s b => (some (successResponse t l s b), 1, 1)
      | _ =>
        let r := fetchLoop pytubefixCall transcriptApiCall fuel (att + 1)
        (r.1, r.2.1 + 1, r.2.2 + 1)

/-- The embedded fetch_transcript (src/main.py lines 239-288).  The
two strategies are parameters taking video id, language and attempt
index; delays are modelled separately by attemptDelayMs since they do
not influence the returned value. -/
def fetch_transcript (video_id lang : String) (max_retries : Nat)
    (pytubefixCall transcriptApiCall : String → String → Nat → ProviderResult) :
    TranscriptResponse :=
  if invalidVideoId video_id then invalidResponse
  else
    match (fetchLoop (pytubefixCall video_id lang) (transcriptApiCall video_id lang)
        max_retries 0).1 with
    | some r => r
    | none => allFailedResponse video_id

/-- Number of calls fetch_transcript makes to each strategy, in the
order (pytubefix calls, transcript api calls). -/
def fetch_calls (video_id lang : String) (max_retries : Nat)
    (pytubefixCall transcriptApiCall : String → String → Nat → ProviderResult) :
    Nat × Nat :=
  if invalidVideoId video_id then (0, 0)
  else (fetchLoop (pytubefixCall video_id lang) (transcriptApiCall video_id lang)
      max_retries 0).2

/-- Defaulting applied by the POST route (src/main.py line 318):
payload.lang or "en" maps Python None and the empty string to "en" and
keeps any other string. -/
def langOrEn : Option String → String
  | none => "en"
  | some s => if s == "" then "en" else s

/-- The GET /transcript handler (src/main.py lines 293-305): delegates
to fetch_transcript with the default retry budget of 3. -/
def get_transcript (video_id lang : String)
    (pytubefixCall transcriptApiCall : String → String → Nat → ProviderResult) :
    TranscriptResponse :=
  fetch_transcript video_id lang 3 pytubefixCall transcriptApiCall

/-- The POST /transcript handler (src/main.py lines 307-318):
delegates to fetch_transcript after defaulting the language. -/
def post_transcript (payload : TranscriptRequest)
    (pytubefixCall transcriptApiCall : String → String → Nat → ProviderResult) :
    TranscriptResponse :=
  fetch_transcript payload.video_id (langOrEn payload.lang) 3
    pytubefixCall transcriptApiCall

/-- Strategy that always succeeds, used as a concrete instance in
counterexamples and witnesses. -/
def alwaysOkProvider : String → String → Nat → ProviderResult :=
  fun _ _ _ => .success "hello world" "en" "pytubefix" true

/-- Strategy that always fails with the transcripts_disabled error
dictionary. -/
def disabledProvider : String → String → Nat → ProviderResult :=
  fun _ _ _ => .failure "transcripts_disabled" "Subtitles are disabled for this video"

/-- Strategy that always fails with the video_unavailable error
dictionary. -/
def unavailableProvider : String → String → Nat → ProviderResult :=
  fun _ _ _ => .failure "video_unavailable" "The video is no longer available"

/-- Strategy that always returns Python None. -/
def noneProvider : String → String → Nat → ProviderResult :=
  fun _ _ _ => .noResult

/-! ## Helper lemmas -/

/-- A find? call on a list containing an element satisfying the
predicate returns some element. -/
theorem find?_isSome_of_exists {α : Type} (p : α → Bool) (l : List α)
    (h : ∃ x, x ∈ l ∧ p x = true) : (l.find? p).isSome := by
  obtain ⟨x, hx, hp⟩ := h
  induction l with
  | nil => cases hx
  | cons a as ih =>
    by_cases ha : p a
    · rw [List.find?_cons_of_pos _ ha]; rfl
    · cases hx with
      | head => exact absurd hp (by simpa using ha)
      | tail _ hmem =>
        rw [List.find?_cons_of_neg _ (by simpa using ha)]
        exact ih hmem

/-- Validation helper: any input whose length differs from 11 is
rejected by the source check. -/
theorem invalidVideoId_of_length_ne (s : String) (h : s.length ≠ 11) :
    invalidVideoId s = true := by
  unfold invalidVideoId
  have hb : (s.length != 11) = true := bne_iff_ne.mpr h
  rw [hb, Bool.or_true]

/-- Validation helper: any input of length 11 passes the source
check. -/
theorem validVideoId_of_length (s : String) (h : s.length = 11) :
    invalidVideoId s = false := by
  unfold invalidVideoId
  have hne : (s == "") = false := by
    apply beq_eq_false_iff_ne.mpr
    intro h0
    rw [h0] at h
    exact absurd h (by decide)
  rw [hne, h]
  decide

/-- When both strategies fail on every call, the retry loop returns no
response and bills one call per strategy per attempt. -/
theorem fetchLoop_allFail (P A : Nat → ProviderResult)
    (hP : ∀ n, isSuccessR (P n) = false) (hA : ∀ n, isSuccessR (A n) = false) :
    ∀ fuel att, fetchLoop P A fuel att = (none, fuel, fuel) := by
  intro fuel
  induction fuel with
  | zero => intro att; rfl
  | succ fuel ih =>
    intro att
    have hP' := hP att
    have hA' := hA att
    unfold fetchLoop
    cases hp : P att with
    | success t l s b => rw [hp] at hP'; simp [isSuccessR] at hP'
    | failure e m =>
      cases ha : A att with
      | success t l s b => rw [ha] at hA'; simp [isSuccessR] at hA'
      | failure e2 m2 => simp [ih (att + 1)]
      | noResult => simp [ih (att + 1)]
    | noResult =>
      cases ha : A att with
      | success t l s b => rw [ha] at hA'; simp [isSuccessR] at hA'
      | failure e2 m2 => simp [ih (att + 1)]
      | noResult => simp [ih (att + 1)]

/-- Any response the retry loop returns is a success response built
from a success dictionary. -/
theorem fetchLoop_some_shape (P A : Nat → ProviderResult) :
    ∀ fuel att r, (fetchLoop P A fuel att).1 = some r →
      ∃ t l s b, r = successResponse t l s b := by
  intro fuel
  induction fuel with
  | zero => intro att r h; simp [fetchLoop] at h
  | succ fuel ih =>
    intro att r h
    unfold fetchLoop at h
    cases hp : P att with
    | success t l s b =>
      rw [hp] at h
      simp at h
      exact ⟨t, l, s, b, h.symm⟩
    | failure e m =>
      rw [hp] at h
      cases ha : A att with
      | success t l s b =>
        rw [ha] at h
        simp at h
        exact ⟨t, l, s, b, h.symm⟩
      | failure e2 m2 =>
        rw [ha] at h
        simp at h
        exact ih (att + 1) r h
      | noResult =>
        rw [ha] at h
        simp at h
        exact ih (att + 1) r h
    | noResult =>
      rw [hp] at h
      cases ha : A att with
      | success t l s b =>
        rw [ha] at h
        simp at h
        exact ⟨t, l, s, b, h.symm⟩
      | failure e2 m2 =>
        rw [ha] at h
        simp at h
        exact ih (att + 1) r h
      | noResult =>
        rw [ha] at h
        simp at h
        exact ih (att + 1) r h

/-! ## Claim C1 -/

/-- Claim C1 as stated is false on the code: the fetch operation has
no URL extraction step, so an identifier embedded in the watch-page
URL shape is not recovered; the whole URL fails the length check and
the request is rejected with invalid_video_id, unlike the same request
with the bare identifier, which succeeds. -/
theorem c1_counterexample :
    fetch_transcript (watchUrl "dQw4w9WgXcQ") "en" 3 alwaysOkProvider noneProvider
        = invalidResponse ∧
    (fetch_transcript (watchUrl "dQw4w9WgXcQ") "en" 3 alwaysOkProvider
        noneProvider).error_type = some "invalid_video_id" ∧
    fetch_transcript "dQw4w9WgXcQ" "en" 3 alwaysOkProvider noneProvider
        = successResponse "hello world" "en" "pytubefix" true := by
  refine ⟨by decide, by decide, by decide⟩

/-- C1 amended: the identifier step of fetch_transcript performs no
URL extraction; it accepts a bare 11-character identifier verbatim and
rejects every supported URL shape, since each URL template lengthens
the identifier beyond 11 characters. -/
theorem c1_amended (id : String) (h : id.length = 11) :
    invalidVideoId id = false ∧
    invalidVideoId (watchUrl id) = true ∧
    invalidVideoId (shortUrl id) = true ∧
    invalidVideoId (embedUrl id) = true ∧
    invalidVideoId (vPathUrl id) = true := by
  refine ⟨validVideoId_of_length id h, ?_, ?_, ?_, ?_⟩
  · exact invalidVideoId_of_length_ne _ (by
      show ("https://www.youtube.com/watch?v=" ++ id).length ≠ 11
      rw [String.length_append, h]; decide)
  · exact invalidVideoId_of_length_ne _ (by
      show ("https://youtu.be/" ++ id).length ≠ 11
      rw [String.length_append, h]; decide)
  · exact invalidVideoId_of_length_ne _ (by
      show ("https://www.youtube.com/embed/" ++ id).length ≠ 11
      rw [String.length_append, h]; decide)
  · exact invalidVideoId_of_length_ne _ (by
      show ("https://www.youtube.com/v/" ++ id).length ≠ 11
      rw [String.length_append, h]; decide)

/-- Witness for the amended C1 at a concrete identifier. -/
theorem c1_witness :
    invalidVideoId "dQw4w9WgXcQ" = false ∧
    invalidVideoId (watchUrl "dQw4w9WgXcQ") = true ∧
    invalidVideoId (shortUrl "dQw4w9WgXcQ") = true ∧
    invalidVideoId (embedUrl "dQw4w9WgXcQ") = true ∧
    invalidVideoId (vPathUrl "dQw4w9WgXcQ") = true :=
  c1_amended "dQw4w9WgXcQ" (by decide)

/-! ## Claim C5 -/

/-- Claim C5 as stated is false on the code: an 11-character input
with characters outside the identifier charset passes the validation
check, so the chain is not short-circuited; the first strategy is
invoked and its result is returned. -/
theorem c5_counterexample :
    fetch_transcript "???????????" "en" 3 alwaysOkProvider noneProvider
        = successResponse "hello world" "en" "pytubefix" true ∧
    fetch_calls "???????????" "en" 3 alwaysOkProvider noneProvider = (1, 0) ∧
    (fetch_transcript "???????????" "en" 3 alwaysOkProvider
        noneProvider).error_type ≠ some "invalid_video_id" := by
  refine ⟨by decide, by decide, by decide⟩

/-- C5 amended: validation checks only emptiness and length, not the
charset; every empty or non-11-character input fails immediately with
the invalid_video_id response and no provider is invoked. -/
theorem c5_amended (vid lang : String) (mr : Nat)
    (p a : String → String → Nat → ProviderResult)
    (h : invalidVideoId vid = true) :
    fetch_transcript vid lang mr p a = invalidResponse ∧
    fetch_calls vid lang mr p a = (0, 0) := by
  constructor
  · unfold fetch_transcript; rw [h]; simp
  · unfold fetch_calls; rw [h]; simp

/-- Witness for the amended C5 at a concrete too-short input. -/
theorem c5_witness :
    fetch_transcript "abc" "en" 3 alwaysOkProvider noneProvider = invalidResponse ∧
    fetch_calls "abc" "en" 3 alwaysOkProvider noneProvider = (0, 0) :=
  c5_amended "abc" "en" 3 alwaysOkProvider noneProvider (by decide)

/-! ## Claim C2 -/

/-- Claim C2 as stated is false on the code: a strategy that fails
with the permanent transcripts_disabled error on its first call is
nevertheless called again on every later attempt of the retry loop,
three times in total with the default budget, not exactly once. -/
theorem c2_counterexample :
    fetch_calls "dQw4w9WgXcQ" "en" 3 unavailableProvider disabledProvider = (3, 3) ∧
    (fetch_calls "dQw4w9WgXcQ" "en" 3 unavailableProvider disabledProvider).2 ≠ 1 := by
  refine ⟨by decide, by decide⟩

/-- C2 amended: the retry loop of fetch_transcript never inspects the
error kind of a failed call.  Within one attempt it advances from the
first strategy to the second after any non-success, and the whole
two-strategy sequence is re-run on every attempt, so a strategy that
always fails, with a permanent error or otherwise, is invoked once per
attempt, max_retries times in total. -/
theorem c2_amended (vid lang : String) (mr : Nat)
    (p a : String → String → Nat → ProviderResult)
    (hvid : invalidVideoId vid = false)
    (hp : ∀ v l n, isSuccessR (p v l n) = false)
    (ha : ∀ v l n, isSuccessR (a v l n) = false) :
    fetch_calls vid lang mr p a = (mr, mr) := by
  have hl := fetchLoop_allFail (p vid lang) (a vid lang)
    (fun n => hp vid lang n) (fun n => ha vid lang n) mr 0
  unfold fetch_calls
  rw [hvid]
  simp [hl]

/-- Witness for the amended C2 at concrete always-failing
strategies. -/
theorem c2_witness :
    fetch_calls "aaaaaaaaaaa" "en" 2 unavailableProvider disabledProvider = (2, 2) :=
  c2_amended "aaaaaaaaaaa" "en" 2 unavailableProvider disabledProvider (by decide)
    (fun _ _ _ => rfl) (fun _ _ _ => rfl)

/-! ## Claim C4 -/

/-- Claim C4 as stated is false on the code: when every provider
fails, two runs whose providers fail with entirely different error
kinds return literally the same response, so the response cannot carry
an attempt log recording provider names, retry counts or error kinds;
it carries only the all_methods_failed kind and a fixed message. -/
theorem c4_counterexample :
    fetch_transcript "dQw4w9WgXcQ" "en" 3 unavailableProvider disabledProvider
      = fetch_transcript "dQw4w9WgXcQ" "en" 3
          (fun _ _ _ => .failure "pytubefix_error" "boom")
          (fun _ _ _ => .failure "no_transcript" "nothing") ∧
    (fetch_transcript "dQw4w9WgXcQ" "en" 3 unavailableProvider
        disabledProvider).error_type = some "all_methods_failed" ∧
    (fetch_transcript "dQw4w9WgXcQ" "en" 3 unavailableProvider
        disabledProvider).error = some (allFailedMessage "dQw4w9WgXcQ") := by
  refine ⟨by decide, by decide, by decide⟩

/-- C4 amended: when every provider call fails, fetch_transcript
returns the failure response whose error_type is all_methods_failed
and whose message is the fixed human-readable text interpolating only
the video id; no attempt log exists in the response model. -/
theorem c4_amended (vid lang : String) (mr : Nat)
    (p a : String → String → Nat → ProviderResult)
    (hvid : invalidVideoId vid = false)
    (hp : ∀ v l n, isSuccessR (p v l n) = false)
    (ha : ∀ v l n, isSuccessR (a v l n) = false) :
    fetch_transcript vid lang mr p a = allFailedResponse vid := by
  have hl := fetchLoop_allFail (p vid lang) (a vid lang)
    (fun n => hp vid lang n) (fun n => ha vid lang n) mr 0
  unfold fetch_transcript
  rw [hvid]
  simp [hl]

/-- Witness for the amended C4 at concrete always-failing
strategies. -/
theorem c4_witness :
    fetch_transcript "aaaaaaaaaaa" "en" 2 unavailableProvider disabledProvider
      = allFailedResponse "aaaaaaaaaaa" :=
  c4_amended "aaaaaaaaaaa" "en" 2 unavailableProvider disabledProvider (by decide)
    (fun _ _ _ => rfl) (fun _ _ _ => rfl)

/-! ## Claim C9 -/

/-- Exclusivity invariant of the response model: on success the text,
language and source fields are populated and the error fields absent;
on failure the error fields are populated and the data fields
absent. -/
def exclusiveResult (r : TranscriptResponse) : Prop :=
  (r.success = true → r.text ≠ none ∧ r.language ≠ none ∧ r.source ≠ none ∧
    r.error = none ∧ r.error_type = none) ∧
  (r.success = false → r.error ≠ none ∧ r.error_type ≠ none ∧ r.text = none ∧
    r.language = none ∧ r.source = none)

/-- Claim C9 confirmed: every response fetch_transcript can return,
for any input and any provider behaviour, satisfies the exclusivity
invariant: exactly one of the data group and the error group is
populated, according to the success flag. -/
theorem c9_exclusivity (vid lang : String) (mr : Nat)
    (p a : String → String → Nat → ProviderResult) :
    exclusiveResult (fetch_transcript vid lang mr p a) := by
  unfold fetch_transcript
  by_cases h : invalidVideoId vid
  · rw [h]
    simp [exclusiveResult, invalidResponse]
  · rw [Bool.not_eq_true] at h
    rw [h]
    simp only [Bool.false_eq_true, if_false]
    cases hm : (fetchLoop (p vid lang) (a vid lang) mr 0).1 with
    | none => simp [exclusiveResult, allFailedResponse]
    | some r =>
      obtain ⟨t, l2, s, b, rfl⟩ := fetchLoop_some_shape _ _ mr 0 r hm
      simp [exclusiveResult, successResponse]

/-- Witness for C9: the invariant evaluated on a concrete successful
run. -/
theorem c9_witness :
    (fetch_transcript "dQw4w9WgXcQ" "en" 3 alwaysOkProvider noneProvider).text ≠ none ∧
    (fetch_transcript "dQw4w9WgXcQ" "en" 3 alwaysOkProvider noneProvider).error = none :=
  ⟨((c9_exclusivity "dQw4w9WgXcQ" "en" 3 alwaysOkProvider noneProvider).1 (by decide)).1,
    ((c9_exclusivity "dQw4w9WgXcQ" "en" 3 alwaysOkProvider noneProvider).1
      (by decide)).2.2.2.1⟩

/-! ## Claim C10 -/

/-- Claim C10 confirmed: for any non-empty language string the GET
handler and the POST handler return the identical response, both
delegating to fetch_transcript with retry budget 3; and the POST
handler maps a null or empty-string language, and the pydantic default
used when the field is missing, to "en" before delegating. -/
theorem c10_get_post_equiv :
    (∀ vid lang p a, lang ≠ "" →
      get_transcript vid lang p a = post_transcript ⟨vid, some lang⟩ p a) ∧
    (∀ vid p a, post_transcript ⟨vid, none⟩ p a = fetch_transcript vid "en" 3 p a) ∧
    (∀ vid p a, post_transcript ⟨vid, some ""⟩ p a = fetch_transcript vid "en" 3 p a) ∧
    langOrEn (some "en") = "en" := by
  refine ⟨?_, ?_, ?_, rfl⟩
  · intro vid lang p a h
    have hb : (lang == "") = false := beq_eq_false_iff_ne.mpr h
    have hl : langOrEn (some lang) = lang := by
      show (if (lang == "") = true then "en" else lang) = lang
      rw [hb]
      simp
    simp only [get_transcript, post_transcript]
    rw [hl]
  · intro vid p a
    rfl
  · intro vid p a
    rfl

/-- Witness for C10 at a concrete request. -/
theorem c10_witness :
    get_transcript "dQw4w9WgXcQ" "fr" alwaysOkProvider noneProvider
      = post_transcript ⟨"dQw4w9WgXcQ", some "fr"⟩ alwaysOkProvider noneProvider :=
  c10_get_post_equiv.1 "dQw4w9WgXcQ" "fr" alwaysOkProvider noneProvider (by decide)

/-! ## Claim C3 -/

/-- Claim C3 as stated is false on the code.  First instance: with the
advertised set being a manual French track and a generated English
track and requested language "de", the code selects the generated
English track through its hardwired "en" fallback, while the stated
order (any manual track before any track at all, requested = the
single tag "de") selects the manual French one.  Second instance: with
a manual English track and a generated German track and requested tags
"de" then "en", the code selects the generated German track, while the
stated order (manual matching a requested tag first) selects the
manual English one. -/
theorem c3_counterexample :
    selectTranscript [⟨"fr", false⟩, ⟨"en", true⟩] "de" = some ⟨"en", true⟩ ∧
    resolveSpecOrder [⟨"fr", false⟩, ⟨"en", true⟩] ["de"] = some ⟨"fr", false⟩ ∧
    selectTranscript [⟨"en", false⟩, ⟨"de", true⟩] "de" = some ⟨"de", true⟩ ∧
    resolveSpecOrder [⟨"en", false⟩, ⟨"de", true⟩] ["de", "en"] = some ⟨"en", false⟩ ∧
    (some (⟨"en", true⟩ : Track) ≠ some (⟨"fr", false⟩ : Track)) ∧
    (some (⟨"de", true⟩ : Track) ≠ some (⟨"en", false⟩ : Track)) := by
  refine ⟨by decide, by decide, by decide, by decide, by decide, by decide⟩

/-- C3 amended: resolution is per language tag, not per authorship
class: the code tries the requested tag with manual preferred over
generated within that tag, then the hardwired "en" fallback likewise,
and finally falls back to the first advertised track regardless of
authorship.  Manual precedence holds within the tag being matched; in
particular the spec example (manual "en", generated "en", generated
"fr" with requested "de" then "en") yields the manual "en" track. -/
theorem c3_amended :
    (∀ tl l, (∃ t, t ∈ tl ∧ t.is_generated = false ∧ t.language_code = l) →
      ∃ t, find_transcript tl [l] = some t ∧ t.is_generated = false ∧
        t.language_code = l) ∧
    selectTranscript [⟨"en", false⟩, ⟨"en", true⟩, ⟨"fr", true⟩] "de"
      = some ⟨"en", false⟩ ∧
    (∀ tl lang, find_transcript tl [lang] = none →
      find_transcript tl ["en"] = none → selectTranscript tl lang = tl.head?) := by
  refine ⟨?_, by decide, ?_⟩
  · intro tl l hex
    have hfind : (tl.find? (fun t => !t.is_generated && t.language_code == l)).isSome := by
      apply find?_isSome_of_exists
      obtain ⟨t, ht, hg, hc⟩ := hex
      exact ⟨t, ht, by simp [hg, hc]⟩
    obtain ⟨t, ht⟩ := Option.isSome_iff_exists.mp hfind
    have hpred := List.find?_some ht
    simp only [Bool.and_eq_true, Bool.not_eq_true', beq_iff_eq] at hpred
    refine ⟨t, ?_, hpred.1, hpred.2⟩
    unfold find_transcript
    rw [ht]
  · intro tl lang h1 h2
    unfold selectTranscript
    rw [h1, h2]

/-- Witness for the amended C3 at concrete track lists. -/
theorem c3_witness :
    (∃ t, find_transcript [⟨"en", false⟩, ⟨"en", true⟩] ["en"] = some t ∧
        t.is_generated = false ∧ t.language_code = "en") ∧
    selectTranscript [⟨"fr", true⟩, ⟨"es", false⟩] "de"
        = ([⟨"fr", true⟩, ⟨"es", false⟩] : List Track).head? :=
  ⟨c3_amended.1 [⟨"en", false⟩, ⟨"en", true⟩] "en"
      ⟨⟨"en", false⟩, by decide, rfl, rfl⟩,
    c3_amended.2.2 [⟨"fr", true⟩, ⟨"es", false⟩] "de" (by decide) (by decide)⟩

/-! ## Claim C6 -/

/-- Claim C6 as stated is false on the code: the caption-index
provider joins the fetched entry texts with single spaces and returns
the result verbatim, succeeding even when the joined text is empty,
and keeping internal newlines uncollapsed. -/
theorem c6_counterexample :
    try_transcript_api (.ok [⟨"en", false⟩]) (fun _ => [""]) "en"
        = .success "" "en" "youtube-transcript-api" false ∧
    try_transcript_api (.ok [⟨"en", false⟩]) (fun _ => ["a\nb", "c"]) "en"
        = .success "a\nb c" "en" "youtube-transcript-api" false := by
  refine ⟨by decide, by decide⟩

/-- C6 amended: the caption-index provider returns the entry texts of
the chosen track joined by single spaces in chronological order, with
no newline collapsing, no trimming and no emptiness check; the
emptiness guarantee belongs to the pytubefix provider, whose successes
always carry non-empty text (it fails with empty_captions
otherwise). -/
theorem c6_amended :
    (∀ tl f lang t, selectTranscript tl lang = some t →
      try_transcript_api (.ok tl) f lang
        = .success (String.intercalate " " (f t)) t.language_code
            "youtube-transcript-api" t.is_generated) ∧
    (∀ o lang t l s b, try_pytubefix o lang = .success t l s b → t ≠ "") := by
  constructor
  · intro tl f lang t h
    simp only [try_transcript_api]
    rw [h]
  · intro o lang t l s b h
    cases o with
    | unavailableLib => simp [try_pytubefix] at h
    | videoInaccessible m => simp [try_pytubefix] at h
    | ok caps =>
      simp only [try_pytubefix] at h
      by_cases hc : caps = []
      · rw [if_pos hc] at h
        simp at h
      · rw [if_neg hc] at h
        cases hp : pickCaption caps lang with
        | none => rw [hp] at h; simp at h
        | some c =>
          simp only [hp] at h
          by_cases ht : parseSrt c.srt = ""
          · rw [if_pos ht] at h
            simp at h
          · rw [if_neg ht] at h
            simp only [ProviderResult.success.injEq] at h
            rw [← h.1]
            exact ht

/-- Witness for the amended C6 at concrete inputs. -/
theorem c6_witness :
    try_transcript_api (.ok [⟨"en", false⟩]) (fun _ => ["hi"]) "en"
        = .success "hi" "en" "youtube-transcript-api" false ∧
    ("hi" : String) ≠ "" :=
  ⟨c6_amended.1 [⟨"en", false⟩] (fun _ => ["hi"]) "en" ⟨"en", false⟩ (by decide),
    c6_amended.2 (.ok [⟨"en", "hi"⟩]) "en" "hi" "en" "pytubefix" true (by decide)⟩

/-! ## Claim C7 -/

/-- Claim C7 as stated is false on the code: no configured maximum
caps the backoff, since the wait before attempt a + 1 is a full
2 ^ (a + 1) seconds for every a, the delays exceed every candidate
bound M as the attempt index grows. -/
theorem c7_counterexample :
    ¬ ∃ M : Nat, ∀ a : Nat, attemptDelayMs (fun _ => 100) a ≤ M := by
  rintro ⟨M, hM⟩
  have h := hM (M + 1)
  unfold attemptDelayMs backoffSleepMs at h
  rw [if_neg (Nat.succ_ne_zero M)] at h
  have h2 : M + 1 < 2 ^ (M + 1) := Nat.lt_two_pow (M + 1)
  have h3 : 2 ^ (M + 1) ≤ 2 ^ (M + 1) * 1000 :=
    Nat.le_mul_of_pos_right _ (by norm_num)
  omega

/-- C7 amended: the waits between attempts are non-decreasing, and the
wait before 1-indexed attempt n (0-indexed a = n - 1, a at least 1) is
2 ^ a seconds, i.e. base 2000 milliseconds times 2 ^ (n - 2), plus a
random jitter in the bounded window of 100 to 500 milliseconds; no cap
is applied. -/
theorem c7_amended (j : Nat → Nat) (hj : ∀ i, 100 ≤ j i ∧ j i ≤ 500) :
    (∀ a, attemptDelayMs j a ≤ attemptDelayMs j (a + 1)) ∧
    (∀ a, 1 ≤ a → attemptDelayMs j a = 2000 * 2 ^ (a - 1) + j a) := by
  constructor
  · intro a
    unfold attemptDelayMs backoffSleepMs
    rcases Nat.eq_zero_or_pos a with h0 | hpos
    · subst h0
      rw [if_pos rfl, if_neg (Nat.succ_ne_zero 0)]
      have h1 := (hj 0).2
      have h2 := (hj 1).1
      have h3 : 2 ^ (0 + 1) * 1000 = 2000 := by norm_num
      omega
    · have ha : a ≠ 0 := Nat.pos_iff_ne_zero.mp hpos
      rw [if_neg ha, if_neg (Nat.succ_ne_zero a)]
      have h1 : (1 : Nat) ≤ 2 ^ a := Nat.one_le_two_pow
      have hpow : 2 ^ (a + 1) = 2 ^ a * 2 := pow_succ 2 a
      have hja := (hj a).2
      have hja1 := (hj (a + 1)).1
      omega
  · intro a ha
    unfold attemptDelayMs backoffSleepMs
    rw [if_neg (by omega : a ≠ 0)]
    congr 1
    have h2 : 2 ^ a = 2 ^ (a - 1) * 2 := by
      rw [← pow_succ]
      congr 1
      omega
    rw [h2]
    ring

/-- Witness for the amended C7 at a concrete jitter sequence. -/
theorem c7_witness :
    attemptDelayMs (fun _ => 100) 1 ≤ attemptDelayMs (fun _ => 100) 2 ∧
    attemptDelayMs (fun _ => 100) 1 = 2000 * 2 ^ 0 + 100 :=
  ⟨(c7_amended (fun _ => 100) (fun _ => ⟨by norm_num, by norm_num⟩)).1 1,
    (c7_amended (fun _ => 100) (fun _ => ⟨by norm_num, by norm_num⟩)).2 1
      (by norm_num)⟩

/-! ## Claim C8 -/

/-- Claim C8 confirmed: whenever the advertised set of tracks is
non-empty, both selection procedures pick some track even when no
requested tag matches; in particular requested "de" against a single
generated "fr" track yields the "fr" track. -/
theorem c8_fallback :
    (∀ tl lang, tl ≠ [] → (selectTranscript tl lang).isSome) ∧
    (∀ caps lang, caps ≠ [] → (pickCaption caps lang).isSome) ∧
    selectTranscript [⟨"fr", true⟩] "de" = some ⟨"fr", true⟩ := by
  refine ⟨?_, ?_, by decide⟩
  · intro tl lang h
    unfold selectTranscript
    cases h1 : find_transcript tl [lang] with
    | some t => simp
    | none =>
      cases h2 : find_transcript tl ["en"] with
      | some t => simp
      | none =>
        cases tl with
        | nil => exact absurd rfl h
        | cons a as => simp
  · intro caps lang h
    unfold pickCaption
    by_cases h1 : lang ∈ caps.map (fun c => c.code)
    · rw [if_pos h1]
      apply find?_isSome_of_exists
      obtain ⟨c, hc, hcode⟩ := List.mem_map.mp h1
      exact ⟨c, hc, by simp [hcode]⟩
    · rw [if_neg h1]
      by_cases h2 : "en" ∈ caps.map (fun c => c.code)
      · rw [if_pos h2]
        apply find?_isSome_of_exists
        obtain ⟨c, hc, hcode⟩ := List.mem_map.mp h2
        exact ⟨c, hc, by simp [hcode]⟩
      · rw [if_neg h2]
        cases caps with
        | nil => exact absurd rfl h
        | cons a as => simp

/-- Witness for C8 at concrete singleton track sets. -/
theorem c8_witness :
    (selectTranscript [⟨"fr", true⟩] "de").isSome = true ∧
    (pickCaption [⟨"fr", "bonjour"⟩] "de").isSome = true :=
  ⟨c8_fallback.1 [⟨"fr", true⟩] "de" (by decide),
    c8_fallback.2.1 [⟨"fr", "bonjour"⟩] "de" (by decide)⟩
